import Mathlib

/-!
Verification of the request lifecycle and health-aggregation pipeline of the
`python-service-template` FastAPI skeleton, as a shallow embedding.

The embedded modules are:
* `src/api/health.py` — the health probe endpoints (`liveness`, `readiness`,
  `startup`, `health`) and the status aggregation inside `readiness`;
* `src/core/middleware.py` — `CorrelationIdMiddleware`, `RequestLoggingMiddleware`
  and `SecurityHeadersMiddleware`;
* `src/db/session.py` / `src/db/redis.py` — the component health checkers
  `check_db_health` and `check_redis_health`.

Modelling conventions:
* The template's build-time conditionals (`values.database != "none"`,
  `values.cache == "elasticache-redis"`) become a `TemplateConfig` record of
  booleans; the generated handler is a function of that record.
* Nondeterministic inputs of the Python code (clock readings, the value
  produced by `uuid4`, the outcome of a database/redis round trip) become
  explicit parameters, so that each function is a pure function of the
  environment it observes.
* Python exceptions raised by a probe are reified as a `ProbeOutcome.failure`
  constructor carrying `str(e)`; the `try/except` blocks of the checkers become
  a `match` on that constructor, so totality of the Lean function mirrors the
  non-throwing contract of the Python function.
* Latencies and durations are modelled over `ℚ`; `round(x, 2)` becomes
  `round2`, rounding to two decimal places.
-/

namespace Skeleton

/-- `HealthStatus` enum from `src/api/health.py` lines 24–29. -/
inductive HealthStatus where
  | healthy
  | degraded
  | unhealthy
deriving DecidableEq, Repr

/-- `round(x, 2)` from Python, over `ℚ`: round to two decimal places. -/
def round2 (q : ℚ) : ℚ := (round (q * 100) : ℤ) / 100

/-- `ComponentHealth` model from `src/api/health.py` lines 32–37. -/
structure ComponentHealth where
  status : HealthStatus
  latency_ms : Option ℚ := none
  message : Option String := none
deriving DecidableEq, Repr

/-- `HealthResponse` model from `src/api/health.py` lines 40–46.  The
`components` map is an association list in insertion order. -/
structure HealthResponse where
  status : HealthStatus
  version : String
  timestamp : String
  components : Option (List (String × ComponentHealth)) := none
deriving DecidableEq, Repr

/-- The template variables that decide which component checks are compiled
into the generated `readiness` handler: `values.database != "none" and
values.orm != "none"` and `values.cache == "elasticache-redis"`. -/
structure TemplateConfig where
  dbConfigured : Bool
  redisConfigured : Bool
deriving DecidableEq, Repr

/-- The `overall_status` computation of `readiness`
(`src/api/health.py` lines 70–91): start at `HEALTHY`; if the database check
is compiled in and reports non-healthy, set `UNHEALTHY`; if the redis check is
compiled in and reports non-healthy, set `DEGRADED` only when the status is
still `HEALTHY`. -/
def overallStatus (cfg : TemplateConfig) (dbStatus redisStatus : HealthStatus) :
    HealthStatus :=
  let overall := HealthStatus.healthy
  let overall :=
    if cfg.dbConfigured then
      if dbStatus ≠ HealthStatus.healthy then HealthStatus.unhealthy else overall
    else overall
  if cfg.redisConfigured then
    if redisStatus ≠ HealthStatus.healthy then
      if overall = HealthStatus.healthy then HealthStatus.degraded else overall
    else overall
  else overall

/-- The `components` map built by `readiness`
(`src/api/health.py` lines 70–84): `"database"` then `"redis"`, each present
exactly when the corresponding check is compiled in. -/
def readinessComponents (cfg : TemplateConfig) (dbHealth redisHealth : ComponentHealth) :
    List (String × ComponentHealth) :=
  (if cfg.dbConfigured then [("database", dbHealth)] else []) ++
    (if cfg.redisConfigured then [("redis", redisHealth)] else [])

/-- The `readiness` handler (`src/api/health.py` lines 68–101): runs the
compiled-in component checks (their results are the `dbHealth`/`redisHealth`
parameters), folds the overall status, sets the HTTP status code to 503 when
the overall status is not healthy (otherwise the framework default 200), and
returns the response body with `components` set to `None` when no check ran. -/
def readiness (cfg : TemplateConfig) (dbHealth redisHealth : ComponentHealth)
    (version timestamp : String) : HealthResponse × Nat :=
  let overall := overallStatus cfg dbHealth.status redisHealth.status
  let components := readinessComponents cfg dbHealth redisHealth
  let code := if overall ≠ HealthStatus.healthy then 503 else 200
  ({ status := overall
     version := version
     timestamp := timestamp
     components := if components.isEmpty then none else some components },
   code)

/-- The `startup` handler (`src/api/health.py` lines 109–112): returns
`await readiness(response)` verbatim. -/
def startup (cfg : TemplateConfig) (dbHealth redisHealth : ComponentHealth)
    (version timestamp : String) : HealthResponse × Nat :=
  readiness cfg dbHealth redisHealth version timestamp

/-- The `liveness` handler (`src/api/health.py` lines 54–60): unconditional
`HEALTHY` body with no components, HTTP 200 (no status code is ever set). -/
def liveness (version timestamp : String) : HealthResponse × Nat :=
  ({ status := HealthStatus.healthy
     version := version
     timestamp := timestamp
     components := none },
   200)

/-- The `health` handler (`src/api/health.py` lines 116–122): a plain dict
with exactly the keys `status`, `version`, `timestamp`, returned with the
framework default HTTP 200. -/
def healthEndpoint (version timestamp : String) : List (String × String) × Nat :=
  ([("status", "healthy"), ("version", version), ("timestamp", timestamp)], 200)

/-- The result of `CorrelationIdMiddleware.dispatch`
(`src/core/middleware.py` lines 21–28): what was stored in
`correlation_id_ctx` before calling downstream, and the value of the
`X-Correlation-ID` response header. -/
structure CorrelationResult where
  ctxValue : String
  responseHeader : String
deriving DecidableEq, Repr

/-- `request.headers.get(self.HEADER_NAME) or str(uuid4())`
(`src/core/middleware.py` line 23).  `headers.get` yields `None` when the
header is absent; Python `or` falls through to the generated value on both
`None` and the empty string.  The value produced by `str(uuid4())` is the
`generated` parameter. -/
def getOrGenerate (header : Option String) (generated : String) : String :=
  match header with
  | none => generated
  | some v => if v = "" then generated else v

/-- `CorrelationIdMiddleware.dispatch` (`src/core/middleware.py` lines 21–28):
compute the correlation id, store it in the context variable, call downstream,
and set it on the response header. -/
def correlationDispatch (header : Option String) (generated : String) :
    CorrelationResult :=
  let correlation_id := getOrGenerate header generated
  { ctxValue := correlation_id, responseHeader := correlation_id }

/-- One `http_request` log event emitted by `RequestLoggingMiddleware`
(`src/core/middleware.py` lines 43–50). -/
structure LogEvent where
  method : String
  path : String
  status_code : Nat
  duration_ms : ℚ
  client_ip : Option String
deriving DecidableEq, Repr

/-- `RequestLoggingMiddleware.dispatch` (`src/core/middleware.py` lines
34–52): measure the elapsed time around the downstream call (`startTime` and
`endTime` are the two `time.perf_counter()` readings, in seconds), and emit
exactly one `http_request` event unless the request path starts with
`/health`.  The returned list is the sequence of events emitted. -/
def requestLoggingDispatch (method path : String) (client : Option String)
    (statusCode : Nat) (startTime endTime : ℚ) : List LogEvent :=
  let duration_ms := (endTime - startTime) * 1000
  if ¬ path.startsWith "/health" then
    [{ method := method
       path := path
       status_code := statusCode
       duration_ms := round2 duration_ms
       client_ip := client }]
  else []

/-- An `http.response.start` ASGI message as seen by
`SecurityHeadersMiddleware` (`src/core/middleware.py` lines 66–78): a status
code and a header list. -/
structure StartMessage where
  status : Nat
  headers : List (String × String)
deriving DecidableEq, Repr

/-- The six security headers appended by `SecurityHeadersMiddleware`
(`src/core/middleware.py` lines 69–76). -/
def securityHeaders : List (String × String) :=
  [("x-content-type-options", "nosniff"),
   ("x-frame-options", "DENY"),
   ("x-xss-protection", "1; mode=block"),
   ("strict-transport-security", "max-age=31536000; includeSubDomains"),
   ("cache-control", "no-store"),
   ("content-security-policy", "default-src \x27self\x27")]

/-- `send_wrapper` of `SecurityHeadersMiddleware`
(`src/core/middleware.py` lines 66–78) on an `http.response.start` message:
`message["headers"] = list(message.get("headers", [])) + security_headers`. -/
def applySecurityHeaders (m : StartMessage) : StartMessage :=
  { m with headers := m.headers ++ securityHeaders }

/-- The observable outcome of one underlying liveness probe (`SELECT 1`
round trip for the database, `ping` for redis): either it completes, or it
raises an exception whose `str(e)` is `errMsg`.  `elapsed` is the difference
of the two `time.perf_counter()` readings around the probe, in seconds. -/
inductive ProbeOutcome where
  | success (elapsed : ℚ)
  | failure (errMsg : String) (elapsed : ℚ)
deriving DecidableEq, Repr

/-- `check_db_health` (`src/db/session.py` lines 59–74): run `SELECT 1`
inside `try/except`; on success report `HEALTHY` with the rounded latency; on
exception report `UNHEALTHY` with the rounded latency and `str(e)`. -/
def check_db_health : ProbeOutcome → ComponentHealth
  | ProbeOutcome.success elapsed =>
      { status := HealthStatus.healthy
        latency_ms := some (round2 (elapsed * 1000)) }
  | ProbeOutcome.failure errMsg elapsed =>
      { status := HealthStatus.unhealthy
        latency_ms := some (round2 (elapsed * 1000))
        message := some errMsg }

/-- `check_redis_health` (`src/db/redis.py` lines 54–76): when the pool is
not initialized, report `UNHEALTHY` with a fixed message and no latency;
otherwise run `ping` inside `try/except`, reporting `HEALTHY` with the rounded
latency on success, and `UNHEALTHY` with the rounded latency and `str(e)` on
exception. -/
def check_redis_health (poolInitialized : Bool) (outcome : ProbeOutcome) :
    ComponentHealth :=
  if poolInitialized then
    match outcome with
    | ProbeOutcome.success elapsed =>
        { status := HealthStatus.healthy
          latency_ms := some (round2 (elapsed * 1000)) }
    | ProbeOutcome.failure errMsg elapsed =>
        { status := HealthStatus.unhealthy
          latency_ms := some (round2 (elapsed * 1000))
          message := some errMsg }
  else
    { status := HealthStatus.unhealthy
      message := some "Redis pool not initialized" }

/-! ## Theorems -/

/-- C1 (counterexample): the spec's severity-fold rule fails on the code.
With both checks configured, a database check reporting `degraded` yields
overall `unhealthy` (the claim says `degraded`), and a redis check reporting
`unhealthy` with a healthy database yields overall `degraded` (the claim says
`unhealthy`). -/
theorem readiness_spec_fold_rule_fails :
    (overallStatus ⟨true, true⟩ HealthStatus.degraded HealthStatus.healthy =
        HealthStatus.unhealthy ∧
      HealthStatus.unhealthy ≠ HealthStatus.degraded) ∧
    (overallStatus ⟨true, true⟩ HealthStatus.healthy HealthStatus.unhealthy =
        HealthStatus.degraded ∧
      HealthStatus.degraded ≠ HealthStatus.unhealthy) := by
  decide

/-- C1 (amended): with both checks configured, the overall status of the
readiness handler is `unhealthy` when the database check reports any
non-healthy status; otherwise `degraded` when the redis check reports a
non-healthy status; otherwise `healthy`. -/
theorem readiness_aggregation_characterization :
    ∀ (db redis : ComponentHealth) (v t : String),
    (readiness ⟨true, true⟩ db redis v t).1.status =
      (if db.status ≠ HealthStatus.healthy then HealthStatus.unhealthy
       else if redis.status ≠ HealthStatus.healthy then HealthStatus.degraded
       else HealthStatus.healthy) := by
  intro db redis v t
  rcases db with ⟨ds, dl, dm⟩
  rcases redis with ⟨rs, rl, rm⟩
  cases ds <;> cases rs <;> rfl

/-- C2 (counterexample): the aggregation is not symmetric in its two
component statuses: database `degraded` with redis `healthy` yields
`unhealthy`, while database `healthy` with redis `degraded` yields
`degraded`. -/
theorem aggregation_not_symmetric :
    overallStatus ⟨true, true⟩ HealthStatus.degraded HealthStatus.healthy ≠
      overallStatus ⟨true, true⟩ HealthStatus.healthy HealthStatus.degraded := by
  decide

/-- C2 (amended): swapping the database and redis statuses preserves the
overall status exactly when the two statuses are equal or both are
non-healthy; when exactly one of the two is non-healthy, the result depends
on which component reported it. -/
theorem aggregation_swap_characterization :
    ∀ s1 s2 : HealthStatus,
    (overallStatus ⟨true, true⟩ s1 s2 = overallStatus ⟨true, true⟩ s2 s1) ↔
      (s1 = s2 ∨ (s1 ≠ HealthStatus.healthy ∧ s2 ≠ HealthStatus.healthy)) := by
  intro s1 s2
  cases s1 <;> cases s2 <;> decide

/-- C5: the `startup` handler returns exactly what the `readiness` handler
returns, for every configuration and every pair of component check results:
the same body and the same HTTP status code. -/
theorem startup_eq_readiness :
    ∀ (cfg : TemplateConfig) (db redis : ComponentHealth) (v t : String),
    startup cfg db redis v t = readiness cfg db redis v t := by
  intro cfg db redis v t
  rfl

/-- C3: for every configuration and every pair of component check results,
the readiness handler answers HTTP 200 iff every configured component reports
`healthy`; otherwise it answers 503 and the body's `components` map has
exactly the configured component names as keys, in check order. -/
theorem readiness_code_iff_all_healthy :
    ∀ (cfg : TemplateConfig) (db redis : ComponentHealth) (v t : String),
    ((readiness cfg db redis v t).2 = 200 ↔
      ((cfg.dbConfigured = true → db.status = HealthStatus.healthy) ∧
       (cfg.redisConfigured = true → redis.status = HealthStatus.healthy))) ∧
    ((readiness cfg db redis v t).2 ≠ 200 →
      (readiness cfg db redis v t).2 = 503 ∧
      ((readiness cfg db redis v t).1.components).map
          (fun l => l.map Prod.fst) =
        some ((if cfg.dbConfigured then ["database"] else []) ++
          (if cfg.redisConfigured then ["redis"] else []))) := by
  intro cfg db redis v t
  rcases cfg with ⟨dc, rc⟩
  rcases db with ⟨ds, dl, dm⟩
  rcases redis with ⟨rs, rl, rm⟩
  cases dc <;> cases rc <;> cases ds <;> cases rs <;>
    simp [readiness, overallStatus, readinessComponents]

/-- C3 (witness): with both components configured, a healthy database and an
unhealthy redis produce HTTP 503 and a components map with keys
`database`, `redis`. -/
theorem readiness_code_iff_all_healthy_witness :
    (readiness ⟨true, true⟩ ⟨HealthStatus.healthy, none, none⟩
        ⟨HealthStatus.unhealthy, none, none⟩ "1.0.0" "ts").2 = 503 ∧
    ((readiness ⟨true, true⟩ ⟨HealthStatus.healthy, none, none⟩
          ⟨HealthStatus.unhealthy, none, none⟩ "1.0.0" "ts").1.components).map
        (fun l => l.map Prod.fst) = some ["database", "redis"] := by
  have h := (readiness_code_iff_all_healthy ⟨true, true⟩
    ⟨HealthStatus.healthy, none, none⟩ ⟨HealthStatus.unhealthy, none, none⟩
    "1.0.0" "ts").2 (by decide)
  simpa using h

/-- C4: when no `X-Correlation-ID` header is supplied, the response header
carries the freshly generated (non-empty) identifier and the same value was
stored in the context variable; when a non-empty value is supplied, that
exact value is echoed back in the response header and stored in the
context. -/
theorem correlation_id_echo_or_generate (generated v : String)
    (hg : generated ≠ "") (hv : v ≠ "") :
    ((correlationDispatch none generated).responseHeader = generated ∧
     (correlationDispatch none generated).responseHeader ≠ "" ∧
     (correlationDispatch none generated).ctxValue =
       (correlationDispatch none generated).responseHeader) ∧
    ((correlationDispatch (some v) generated).responseHeader = v ∧
     (correlationDispatch (some v) generated).ctxValue = v) := by
  constructor
  · exact ⟨rfl, hg, rfl⟩
  · constructor <;> simp [correlationDispatch, getOrGenerate, hv]

/-- C4 (witness): instantiated with a concrete generated UUID string and a
concrete supplied header value. -/
theorem correlation_id_echo_or_generate_witness :
    ("f47ac10b-58cc-4372-a567-0e02b2c3d479" ≠ "" ∧ "client-id-7" ≠ "") ∧
    (((correlationDispatch none "f47ac10b-58cc-4372-a567-0e02b2c3d479").responseHeader =
        "f47ac10b-58cc-4372-a567-0e02b2c3d479" ∧
      (correlationDispatch none "f47ac10b-58cc-4372-a567-0e02b2c3d479").responseHeader ≠ "" ∧
      (correlationDispatch none "f47ac10b-58cc-4372-a567-0e02b2c3d479").ctxValue =
        (correlationDispatch none "f47ac10b-58cc-4372-a567-0e02b2c3d479").responseHeader) ∧
     ((correlationDispatch (some "client-id-7")
          "f47ac10b-58cc-4372-a567-0e02b2c3d479").responseHeader = "client-id-7" ∧
      (correlationDispatch (some "client-id-7")
          "f47ac10b-58cc-4372-a567-0e02b2c3d479").ctxValue = "client-id-7")) :=
  ⟨⟨by decide, by decide⟩,
   correlation_id_echo_or_generate "f47ac10b-58cc-4372-a567-0e02b2c3d479"
     "client-id-7" (by decide) (by decide)⟩

/-- C6: every `http.response.start` message that passes through
`SecurityHeadersMiddleware` — whatever its status code (200, 404, 422, 500,
…) and whatever headers the inner application set — leaves with all six
security headers present and its status code unchanged. -/
theorem security_headers_on_every_response :
    ∀ m : StartMessage,
    (applySecurityHeaders m).status = m.status ∧
    ("x-content-type-options", "nosniff") ∈ (applySecurityHeaders m).headers ∧
    ("x-frame-options", "DENY") ∈ (applySecurityHeaders m).headers ∧
    ("x-xss-protection", "1; mode=block") ∈ (applySecurityHeaders m).headers ∧
    ("strict-transport-security", "max-age=31536000; includeSubDomains") ∈
      (applySecurityHeaders m).headers ∧
    ("cache-control", "no-store") ∈ (applySecurityHeaders m).headers ∧
    ("content-security-policy", "default-src \x27self\x27") ∈
      (applySecurityHeaders m).headers := by
  intro m
  simp [applySecurityHeaders, securityHeaders]

/-- C7: `GET /health/live` and `GET /health` always answer HTTP 200 with
status `healthy`; the liveness body has no components map, the `/health` dict
has exactly the keys `status`, `version`, `timestamp` and in particular no
`components` key.  (Neither handler takes any component check result as
input: they invoke no checkers.) -/
theorem liveness_and_health_always_healthy :
    ∀ v t : String,
    (liveness v t).2 = 200 ∧
    (liveness v t).1.status = HealthStatus.healthy ∧
    (liveness v t).1.components = none ∧
    (healthEndpoint v t).2 = 200 ∧
    ("status", "healthy") ∈ (healthEndpoint v t).1 ∧
    (healthEndpoint v t).1.map Prod.fst = ["status", "version", "timestamp"] ∧
    "components" ∉ (healthEndpoint v t).1.map Prod.fst := by
  intro v t
  refine ⟨rfl, rfl, rfl, rfl, ?_, rfl, ?_⟩
  · simp [healthEndpoint]
  · simp [healthEndpoint]

/-- C8: the component checkers are total over every probe outcome (the
`try/except` of the source catches every exception), and when the probe
raises, the result is `unhealthy` carrying the exception's description in
`message` and the measured rounded latency in `latency_ms`; on success the
result is `healthy` with the rounded latency; a missing redis pool reports
`unhealthy` with its fixed message and no latency. -/
theorem checkers_total_and_error_reporting :
    ∀ (errMsg : String) (elapsed : ℚ) (o : ProbeOutcome),
    check_db_health (ProbeOutcome.failure errMsg elapsed) =
      { status := HealthStatus.unhealthy
        latency_ms := some (round2 (elapsed * 1000))
        message := some errMsg } ∧
    check_redis_health true (ProbeOutcome.failure errMsg elapsed) =
      { status := HealthStatus.unhealthy
        latency_ms := some (round2 (elapsed * 1000))
        message := some errMsg } ∧
    check_db_health (ProbeOutcome.success elapsed) =
      { status := HealthStatus.healthy
        latency_ms := some (round2 (elapsed * 1000))
        message := none } ∧
    check_redis_health true (ProbeOutcome.success elapsed) =
      { status := HealthStatus.healthy
        latency_ms := some (round2 (elapsed * 1000))
        message := none } ∧
    check_redis_health false o =
      { status := HealthStatus.unhealthy
        latency_ms := none
        message := some "Redis pool not initialized" } := by
  intro errMsg elapsed o
  exact ⟨rfl, rfl, rfl, rfl, rfl⟩

/-- C9: the request-logging middleware emits exactly one `http_request`
event — carrying the method, path, status code, duration in milliseconds
rounded to two decimals, and client address — unless the path starts with
`/health`, in which case it emits none. -/
theorem request_logging_one_event_except_health :
    ∀ (method path : String) (client : Option String) (statusCode : Nat)
      (startTime endTime : ℚ),
    requestLoggingDispatch method path client statusCode startTime endTime =
      (if path.startsWith "/health" then []
       else [{ method := method
               path := path
               status_code := statusCode
               duration_ms := round2 ((endTime - startTime) * 1000)
               client_ip := client }]) := by
  intro method path client statusCode t0 t1
  by_cases h : path.startsWith "/health"
  · simp [requestLoggingDispatch, h]
  · simp [requestLoggingDispatch, h]

/-- C10: a supplied but empty `X-Correlation-ID` header is treated exactly
as an absent one: the freshly generated (non-empty) identifier is stored in
the context and echoed back, not the supplied empty value. -/
theorem empty_correlation_header_treated_absent (generated : String)
    (hg : generated ≠ "") :
    correlationDispatch (some "") generated =
      correlationDispatch none generated ∧
    (correlationDispatch (some "") generated).ctxValue = generated ∧
    (correlationDispatch (some "") generated).responseHeader = generated ∧
    (correlationDispatch (some "") generated).responseHeader ≠ "" := by
  exact ⟨rfl, rfl, rfl, hg⟩

/-- C10 (witness): instantiated with a concrete generated UUID string. -/
theorem empty_correlation_header_treated_absent_witness :
    "9b2d8d6e-0a54-4f1e-8f5d-3f2c1b0a9e8d" ≠ "" ∧
    (correlationDispatch (some "") "9b2d8d6e-0a54-4f1e-8f5d-3f2c1b0a9e8d" =
      correlationDispatch none "9b2d8d6e-0a54-4f1e-8f5d-3f2c1b0a9e8d" ∧
    (correlationDispatch (some "") "9b2d8d6e-0a54-4f1e-8f5d-3f2c1b0a9e8d").ctxValue =
      "9b2d8d6e-0a54-4f1e-8f5d-3f2c1b0a9e8d" ∧
    (correlationDispatch (some "") "9b2d8d6e-0a54-4f1e-8f5d-3f2c1b0a9e8d").responseHeader =
      "9b2d8d6e-0a54-4f1e-8f5d-3f2c1b0a9e8d" ∧
    (correlationDispatch (some "") "9b2d8d6e-0a54-4f1e-8f5d-3f2c1b0a9e8d").responseHeader ≠ "") :=
  ⟨by decide,
   empty_correlation_header_treated_absent "9b2d8d6e-0a54-4f1e-8f5d-3f2c1b0a9e8d"
     (by decide)⟩

end Skeleton
